import Mathlib

/-!
Verification of the gutendex library UI core: a shallow embedding of the
three source variants (part_000, Query.jsx, part_001) of the catalog
client, the result transformer (sort and filter) and the query
controller, together with proofs about the frozen behavioural claims.

Naming convention: namespace V0 embeds src/unnamed/part_000, namespace
V1 embeds src/library_gutendex/src/Query.jsx, namespace V2 embeds
src/unnamed/part_001.  The catalog client code of Query.jsx and
part_001 is textually identical (fetchPage, getBookList, searchBooks),
so it is embedded once in V1 and reused for claims that cite part_001.
-/

/-- An author entry of a book record, as delivered by the catalog API:
name, and optional (nullable) birth and death years. -/
structure Author where
  name : String
  birth_year : Option Int
  death_year : Option Int
deriving DecidableEq

/-- A book record of the catalog API.  Fields not consulted by the
embedded operations (formats) are omitted; download_count is the
non-negative popularity counter, release_date is kept as the raw string
the API delivers. -/
structure Book where
  id : Nat
  title : String
  authors : List Author
  languages : List String
  subjects : List String
  bookshelves : List String
  download_count : Nat
  release_date : String
deriving DecidableEq

/-- One paginated response of the catalog service. -/
structure PageResult where
  count : Nat
  next : Option String
  previous : Option String
  results : List Book
deriving DecidableEq

/-- Outcome of one fetch round trip, the oracle parameter of the
embedding: either the decoded JSON page, or a transport or decode
failure (fetch rejecting, or response.json() throwing). -/
inductive FetchOutcome where
  | success (data : PageResult)
  | failure (msg : String)
deriving DecidableEq

/-- The fallback page returned by fetchPage when the round trip fails
(Query.jsx line 12, part_001 line 13). -/
def emptyPageResult : PageResult :=
  { count := 0, next := none, previous := none, results := [] }

/-- Uppercase hexadecimal digit for a value below 16, used by the
percent-encoding model. -/
def hexChar (n : Nat) : Char :=
  if n < 10 then Char.ofNat (48 + n) else Char.ofNat (55 + n)

/-- Characters that encodeURIComponent leaves unescaped: ASCII
alphanumerics and - _ . ! ~ * quote ( ), given by code point. -/
def uriUnreserved (n : Nat) : Bool :=
  (65 ≤ n && n ≤ 90) || (97 ≤ n && n ≤ 122) || (48 ≤ n && n ≤ 57) ||
  n == 45 || n == 95 || n == 46 || n == 33 || n == 126 || n == 42 ||
  n == 39 || n == 40 || n == 41

/-- UTF-8 byte sequence of a code point, as a list of byte values. -/
def utf8Bytes (n : Nat) : List Nat :=
  if n < 128 then [n]
  else if n < 2048 then [192 + n / 64, 128 + n % 64]
  else if n < 65536 then [224 + n / 4096, 128 + n / 64 % 64, 128 + n % 64]
  else [240 + n / 262144, 128 + n / 4096 % 64, 128 + n / 64 % 64, 128 + n % 64]

/-- One percent escape, a percent sign followed by two uppercase hex
digits of the byte. -/
def percentByte (n : Nat) : String :=
  String.mk [Char.ofNat 37, hexChar (n / 16), hexChar (n % 16)]

/-- Model of the JS builtin encodeURIComponent: unreserved characters
pass through, every other character is replaced by the percent escapes
of its UTF-8 bytes. -/
def encodeURIComponent (s : String) : String :=
  String.join (s.data.map fun c =>
    if uriUnreserved c.toNat then String.mk [c]
    else String.join ((utf8Bytes c.toNat).map percentByte))

/-- Value of a non-empty all-digit character sequence, accumulator
style; none as soon as a non-digit appears. -/
def natOfDigitsAux : List Char → Nat → Option Nat
  | [], acc => some acc
  | c :: cs, acc =>
      if 48 ≤ c.toNat ∧ c.toNat ≤ 57 then
        natOfDigitsAux cs (acc * 10 + (c.toNat - 48))
      else none

/-- Value of a non-empty decimal digit string. -/
def natOfDigits (cs : List Char) : Option Nat :=
  match cs with
  | [] => none
  | _ => natOfDigitsAux cs 0

/-- Model of the implicit JS ToNumber coercion applied to the filter
value string in the author_year comparisons.  A decimal integer literal
(with an optional leading minus sign) converts to its value; any other
string converts to NaN, for which every ordered comparison is false, so
those strings are mapped to none and the comparison sites treat none as
false.  (The comparison sites are only reached for a non-empty filter
value, so the JS coercion of the empty string to 0 never arises.) -/
def jsToNumber? (s : String) : Option Int :=
  match s.data with
  | [] => none
  | c :: cs =>
      if c.toNat = 45 then (natOfDigits cs).map fun n => -(n : Int)
      else (natOfDigits (c :: cs)).map fun n => (n : Int)

namespace V1

/-- API base URL of Query.jsx line 3 (identical in part_001 line 4). -/
def API_BASE_URL : String := "https://gutendex.com"

/-- fetchPage of Query.jsx lines 5-14: returns the decoded page, and on
any transport or decode failure catches the error and returns the empty
fallback page instead of propagating. -/
def fetchPage : FetchOutcome → PageResult
  | FetchOutcome.success d => d
  | FetchOutcome.failure _ => emptyPageResult

/-- Request URL built by getBookList (Query.jsx line 17). -/
def getBookListUrl (sortOrder : String) (page : Int) : String :=
  API_BASE_URL ++ "/books?sort=" ++ sortOrder ++ "&page=" ++ toString page

/-- getBookList of Query.jsx lines 16-19: builds the browse URL and
fetches it.  The first component of the result is the list of network
requests issued, the second the value the promise resolves with. -/
def getBookList (sortOrder : String) (page : Int) (outcome : FetchOutcome) :
    List String × PageResult :=
  ([getBookListUrl sortOrder page], fetchPage outcome)

/-- The accepted search types of Query.jsx line 22. -/
def validSearchTypes : List String := ["topic", "default"]

/-- Request URL built by searchBooks (Query.jsx lines 28-36): the topic
search type uses the topic query parameter, every other accepted search
type uses the search query parameter; the query is percent-encoded. -/
def searchBooksUrl (query searchType sortOrder : String) (page : Int) : String :=
  if searchType = "topic" then
    API_BASE_URL ++ "/books?topic=" ++ encodeURIComponent query ++
      "&sort=" ++ sortOrder ++ "&page=" ++ toString page
  else
    API_BASE_URL ++ "/books?search=" ++ encodeURIComponent query ++
      "&sort=" ++ sortOrder ++ "&page=" ++ toString page

/-- searchBooks of Query.jsx lines 21-38: an invalid search type is
rejected before any URL is built or fetched (the promise rejects with
the invalid-argument message and the request list is empty); a valid
search type issues exactly one request and resolves with the fetched
page (the fallback page on failure, via fetchPage). -/
def searchBooks (query searchType sortOrder : String) (page : Int)
    (outcome : FetchOutcome) : List String × Except String PageResult :=
  if searchType ∈ validSearchTypes then
    ([searchBooksUrl query searchType sortOrder page],
      Except.ok (fetchPage outcome))
  else
    ([], Except.error ("Invalid search type."))

end V1

namespace V0

/-- API base URL of part_000 line 3. -/
def API_BASE_URL : String := "https://www.gutendex.com"

/-- getBookList of part_000 lines 5-14: fetches the browse URL and
resolves with data.results only; on any transport or decode failure the
catch handler resolves with the empty list instead of propagating. -/
def getBookList (sortOrder : String) (outcome : FetchOutcome) :
    List String × List Book :=
  ([API_BASE_URL ++ "/books?sort=" ++ sortOrder],
    match outcome with
    | FetchOutcome.success d => d.results
    | FetchOutcome.failure _ => [])

/-- The accepted search types of part_000 line 17. -/
def validSearchTypes : List String := ["title", "topic", "release_date", "author"]

/-- Request URL built by searchBooks (part_000 line 23): a single URL
form using the search query parameter for every accepted search type;
the query is percent-encoded. -/
def searchBooksUrl (query sortOrder : String) : String :=
  API_BASE_URL ++ "/books?search=" ++ encodeURIComponent query ++
    "&sort=" ++ sortOrder

/-- searchBooks of part_000 lines 16-31: an invalid search type rejects
before any URL is built or fetched; a valid one issues one request and
resolves with data.results, or with the empty list if the round trip
fails. -/
def searchBooks (query searchType sortOrder : String)
    (outcome : FetchOutcome) : List String × Except String (List Book) :=
  if searchType ∈ validSearchTypes then
    ([searchBooksUrl query sortOrder],
      Except.ok (match outcome with
        | FetchOutcome.success d => d.results
        | FetchOutcome.failure _ => []))
  else
    ([], Except.error ("Invalid search type."))

end V0

namespace V1

/-- sortBooks of Query.jsx lines 40-58.  Array.prototype.sort is a
stable sort (guaranteed since ES2019) of a copy (books.slice()); it is
modelled as stable insertion sort under the non-strict total preorder
corresponding to each numeric comparator.  localeCompare on titles is
modelled as the lexicographic string order.  An unrecognized sort order
is logged and returns the input unchanged (the default branch). -/
def sortBooks (books : List Book) (sortOrder : String) : List Book :=
  match sortOrder with
  | "ascending_popular" =>
      List.insertionSort (fun a b : Book => a.download_count ≤ b.download_count) books
  | "descending_popular" =>
      List.insertionSort (fun a b : Book => b.download_count ≤ a.download_count) books
  | "alphabetical" =>
      List.insertionSort (fun a b : Book => a.title ≤ b.title) books
  | "reverse_alphabetical" =>
      List.insertionSort (fun a b : Book => b.title ≤ a.title) books
  | _ => books

/-- JS comparison of a possibly null year against a number: null
coerces to 0, a present year compares as itself (Query.jsx line 73
compares book.authors[0].birth_year and death_year directly, without
filtering out null). -/
def jsNullNum : Option Int → Int
  | none => 0
  | some n => n

/-- The author_year predicate of Query.jsx line 73, which consults only
the first author of the record: kept when birth_year of authors[0] is
at most the coerced filter value which is at most death_year of
authors[0].  A non-numeric filter value compares as NaN, hence false.
The head? none branch is unreachable under the guard in filterBooks
(an empty authors list makes the whole filter call throw). -/
def authorYearKeep (filterValue : String) (b : Book) : Bool :=
  match b.authors.head? with
  | none => false
  | some a =>
      match jsToNumber? filterValue with
      | some n => decide (jsNullNum a.birth_year ≤ n ∧ n ≤ jsNullNum a.death_year)
      | none => false

/-- filterBooks of Query.jsx lines 60-80.  An empty filter type or
value returns the input unchanged.  The language case keeps records
whose languages include the value.  The author_year case dereferences
book.authors[0].birth_year for every record (both in the unused
authorYears computation on line 71 and in the filter predicate on line
73), so if any record has an empty authors list the call throws a
TypeError, modelled as none; otherwise it filters by the first-author
predicate.  An unrecognized filter type is logged and returns the input
unchanged. -/
def filterBooks (books : List Book) (filterType filterValue : String) :
    Option (List Book) :=
  if filterType = "" ∨ filterValue = "" then some books
  else
    match filterType with
    | "language" =>
        some (books.filter fun b => b.languages.contains filterValue)
    | "author_year" =>
        if books.any fun b => b.authors.isEmpty then none
        else some (books.filter (authorYearKeep filterValue))
    | _ => some books

end V1

namespace V2

/-- The author_year predicate of part_001 lines 71-88: collect the
non-null birth years and the non-null death years over all authors of
the record, and keep the record when the coerced filter value lies
between the minimum birth year and the maximum death year.  Math.min of
an empty spread is Infinity and Math.max is -Infinity, which make the
bounds check false, so the empty cases are modelled as false; the
minBirthYear and maxDeathYear inequality tests against undefined on
lines 84-85 are always true (the values are numbers or infinities) and
are omitted.  A non-numeric filter value compares as NaN, hence
false. -/
def authorYearKeep (filterValue : String) (b : Book) : Bool :=
  match (b.authors.map Author.birth_year).filterMap id |>.min?,
        (b.authors.map Author.death_year).filterMap id |>.max?,
        jsToNumber? filterValue with
  | some mn, some mx, some fv => decide (mn ≤ fv ∧ fv ≤ mx)
  | _, _, _ => false

/-- filterBooks of part_001 lines 61-95: empty filter type or value is
the identity; language filters by inclusion; author_year filters by the
min-birth-year to max-death-year bounds predicate over all authors; an
unrecognized filter type is logged and returns the input unchanged. -/
def filterBooks (books : List Book) (filterType filterValue : String) :
    List Book :=
  if filterType = "" ∨ filterValue = "" then books
  else
    match filterType with
    | "language" =>
        books.filter fun b => b.languages.contains filterValue
    | "author_year" =>
        books.filter (authorYearKeep filterValue)
    | _ => books

end V2

namespace V0

/-- The non-strict total preorder corresponding to the comparator of
part_000 lines 38-52: a precedes-or-ties b exactly when the comparator
value of (a, b) is at most 0.  localeCompare is modelled as the
lexicographic string order; new Date parsing of release_date is
modelled by an arbitrary numeric interpretation dateValue supplied as a
parameter; the default branch returns 0 for every pair (a universal
tie), modelled as True. -/
def sortCmpLe (dateValue : String → Int) (sortType : String) (a b : Book) : Prop :=
  match sortType with
  | "alphabetical" => a.title ≤ b.title
  | "reverse_alphabetical" => b.title ≤ a.title
  | "chronological" => dateValue a.release_date ≤ dateValue b.release_date
  | "popularity" => b.download_count ≤ a.download_count
  | _ => True

instance sortCmpLeDec (dateValue : String → Int) (sortType : String) :
    DecidableRel (sortCmpLe dateValue sortType) := fun a b => by
  unfold sortCmpLe
  split <;> infer_instance

/-- sortBooks of part_000 lines 33-53: an empty sort type returns the
input unchanged; otherwise a stable sort of a copy under the comparator
preorder, modelled as stable insertion sort. -/
def sortBooks (dateValue : String → Int) (books : List Book) (sortType : String) :
    List Book :=
  if sortType = "" then books
  else List.insertionSort (sortCmpLe dateValue sortType) books

/-- filterBooks of part_000 lines 55-69: empty filter type or value is
the identity; language filters by languages inclusion, topic by
subjects inclusion; an unrecognized filter type is logged and returns
the input unchanged. -/
def filterBooks (books : List Book) (filterType filterValue : String) :
    List Book :=
  if filterType = "" ∨ filterValue = "" then books
  else
    match filterType with
    | "language" =>
        books.filter fun b => b.languages.contains filterValue
    | "topic" =>
        books.filter fun b => b.subjects.contains filterValue
    | _ => books

end V0

section StableSortLemmas

variable {α : Type} (r : α → α → Prop) [DecidableRel r]

/-- Inserting an element that precedes every element of the target list
places it at the head. -/
theorem orderedInsert_all_le (x : α) (t : List α)
    (h : ∀ z ∈ t, r x z) : t.orderedInsert r x = x :: t := by
  cases t with
  | nil => rfl
  | cons y ys =>
      simp only [List.orderedInsert, if_pos (h y (List.mem_cons_self y ys))]

/-- Filtering commutes with ordered insertion of a kept element into a
sorted list, for a transitive preorder. -/
theorem filter_orderedInsert_pos
    (tr : ∀ a b c, r a b → r b c → r a c)
    (p : α → Bool) (x : α) (hp : p x = true) :
    ∀ t : List α, t.Sorted r →
      (t.orderedInsert r x).filter p = (t.filter p).orderedInsert r x := by
  intro t
  induction t with
  | nil => intro _; simp [List.orderedInsert, hp]
  | cons y ys ih =>
      intro hs
      by_cases hxy : r x y
      · rw [List.orderedInsert, if_pos hxy]
        have hall : ∀ z ∈ (y :: ys).filter p, r x z := by
          intro z hz
          have hzmem : z ∈ y :: ys := List.mem_of_mem_filter hz
          rcases List.mem_cons.mp hzmem with h1 | h2
          · exact h1 ▸ hxy
          · exact tr x y z hxy (List.rel_of_sorted_cons hs z h2)
        rw [orderedInsert_all_le r x ((y :: ys).filter p) hall]
        simp [List.filter_cons, hp]
      · rw [List.orderedInsert, if_neg hxy]
        by_cases hpy : p y = true
        · simp only [List.filter_cons, hpy, if_pos]
          rw [ih hs.of_cons, List.orderedInsert, if_neg hxy]
        · have hpy' : p y = false := by
            cases hy : p y with
            | true => exact absurd hy hpy
            | false => rfl
          simp only [List.filter_cons, hpy', Bool.false_eq_true, if_neg,
            ite_false]
          rw [ih hs.of_cons]

/-- Filtering out the inserted element removes the insertion. -/
theorem filter_orderedInsert_neg
    (p : α → Bool) (x : α) (hp : p x = false) :
    ∀ t : List α, (t.orderedInsert r x).filter p = t.filter p := by
  intro t
  induction t with
  | nil => simp [List.orderedInsert, hp]
  | cons y ys ih =>
      by_cases hxy : r x y
      · rw [List.orderedInsert, if_pos hxy]
        simp [List.filter_cons, hp]
      · rw [List.orderedInsert, if_neg hxy]
        by_cases hpy : p y = true
        · simp [List.filter_cons, hpy, ih]
        · have hpy' : p y = false := by
            cases hy : p y with
            | true => exact absurd hy hpy
            | false => rfl
          simp [List.filter_cons, hpy', ih]

/-- Filtering commutes with stable insertion sort under a total
transitive preorder: sorting then filtering equals filtering then
sorting.  This is the key consequence of stability used for the
filter-then-sort variant and for the stability claims. -/
theorem filter_insertionSort
    (tot : ∀ a b, r a b ∨ r b a)
    (tr : ∀ a b c, r a b → r b c → r a c)
    (p : α → Bool) (l : List α) :
    (List.insertionSort r l).filter p = List.insertionSort r (l.filter p) := by
  haveI : IsTotal α r := ⟨tot⟩
  haveI : IsTrans α r := ⟨tr⟩
  induction l with
  | nil => rfl
  | cons x xs ih =>
      by_cases hp : p x = true
      · rw [List.insertionSort,
          filter_orderedInsert_pos r tr p x hp _ (List.sorted_insertionSort r _),
          ih, List.filter_cons, if_pos hp, List.insertionSort]
      · have hp' : p x = false := by
          cases hy : p x with
          | true => exact absurd hy hp
          | false => rfl
        rw [List.insertionSort, filter_orderedInsert_neg r p x hp', ih,
          List.filter_cons]
        simp [hp']

/-- A list whose elements are pairwise related in both orders is sorted,
so stable insertion sort leaves it unchanged. -/
theorem insertionSort_of_all_rel (l : List α)
    (h : ∀ a ∈ l, ∀ b ∈ l, r a b) :
    List.insertionSort r l = l :=
  List.Sorted.insertionSort_eq (List.pairwise_of_forall_mem_list h)

end StableSortLemmas

namespace V1

/-- The useState hooks of the GutenbergSearch component of Query.jsx
lines 83-94, gathered into one record (the QueryState of the spec). -/
structure ControllerState where
  searchTerm : String
  results : List Book
  filteredResults : List Book
  sortedResults : List Book
  sortOrder : String
  filterType : String
  filterValue : String
  selectedSearchType : String
  nextPageUrl : Option String
  prevPageUrl : Option String
  currentPage : Int
deriving DecidableEq

/-- handleSearch of Query.jsx lines 136-148: awaits searchBooks; on
resolution stores the raw results into results, filteredResults and
sortedResults, stores the cursors and the page; on rejection (invalid
search type) the catch handler only logs, leaving the state unchanged.
The second component is the list of network requests issued. -/
def handleSearch (s : ControllerState) (page : Int) (outcome : FetchOutcome) :
    ControllerState × List String :=
  match searchBooks s.searchTerm s.selectedSearchType s.sortOrder page outcome with
  | (calls, Except.ok data) =>
      ({ s with
          results := data.results
          filteredResults := data.results
          sortedResults := data.results
          nextPageUrl := data.next
          prevPageUrl := data.previous
          currentPage := page }, calls)
  | (calls, Except.error _) => (s, calls)

/-- handleShowAllBooks of Query.jsx lines 150-162: awaits getBookList
(which never rejects) and stores results, cursors and page the same
way. -/
def handleShowAllBooks (s : ControllerState) (page : Int)
    (outcome : FetchOutcome) : ControllerState × List String :=
  match getBookList s.sortOrder page outcome with
  | (calls, data) =>
      ({ s with
          results := data.results
          filteredResults := data.results
          sortedResults := data.results
          nextPageUrl := data.next
          prevPageUrl := data.previous
          currentPage := page }, calls)

/-- handleNextPage of Query.jsx lines 116-124: a no-op issuing no call
when the next cursor is absent; otherwise re-issues the search when the
search term is non-empty, else the browse, at currentPage + 1. -/
def handleNextPage (s : ControllerState) (outcome : FetchOutcome) :
    ControllerState × List String :=
  match s.nextPageUrl with
  | some _ =>
      if s.searchTerm ≠ "" then handleSearch s (s.currentPage + 1) outcome
      else handleShowAllBooks s (s.currentPage + 1) outcome
  | none => (s, [])

/-- handlePreviousPage of Query.jsx lines 126-134: the mirror image at
currentPage - 1, guarded by the previous cursor. -/
def handlePreviousPage (s : ControllerState) (outcome : FetchOutcome) :
    ControllerState × List String :=
  match s.prevPageUrl with
  | some _ =>
      if s.searchTerm ≠ "" then handleSearch s (s.currentPage - 1) outcome
      else handleShowAllBooks s (s.currentPage - 1) outcome
  | none => (s, [])

/-- The sorting useEffect of Query.jsx lines 96-109: when results is
non-empty, recompute sortedResults from results and sortOrder; when
results is empty, sortedResults is left as it is. -/
def sortEffect (s : ControllerState) : ControllerState :=
  if s.results.length > 0 then
    { s with sortedResults := sortBooks s.results s.sortOrder }
  else s

/-- The filtering useEffect of Query.jsx lines 111-114: recompute
filteredResults from sortedResults, filterType and filterValue; none
models the effect throwing (author_year filter over a record with an
empty authors list). -/
def filterEffect (s : ControllerState) : Option ControllerState :=
  (filterBooks s.sortedResults s.filterType s.filterValue).map
    fun f => { s with filteredResults := f }

/-- One settled round of the two derivation effects: after any state
change React runs the sorting effect and then, on the updated
sortedResults, the filtering effect; this composition reaches the fixed
point because the filtering effect changes none of the inputs of the
sorting effect. -/
def settle (s : ControllerState) : Option ControllerState :=
  filterEffect (sortEffect s)

end V1

namespace V0

/-- The useState hooks of the GutenbergSearch component of part_000
lines 72-78, gathered into one record. -/
structure ControllerState where
  searchTerm : String
  results : List Book
  filteredResults : List Book
  sortOrder : String
  filterType : String
  filterValue : String
  selectedSearchType : String
deriving DecidableEq

/-- The single derivation useEffect of part_000 lines 84-88: filter the
raw results, then sort the filtered list, and publish the result as
filteredResults.  Note the order: the code filters first and sorts
second. -/
def settle (dateValue : String → Int) (s : ControllerState) : ControllerState :=
  { s with
      filteredResults :=
        sortBooks dateValue
          (filterBooks s.results s.filterType s.filterValue) s.sortOrder }

end V0

/-- A record with one author born 1800, died 1850: the worked example of
the author_year filter in the spec. -/
def sampleBook1800 : Book :=
  { id := 1, title := "Sample", authors := [⟨"Alice Sample", some 1800, some 1850⟩],
    languages := ["en"], subjects := ["Fiction"], bookshelves := [],
    download_count := 10, release_date := "1830-01-01" }

/-- A record with two authors whose unioned year span is 1700-1850 but
whose first author died in 1750. -/
def sampleBookTwoAuthors : Book :=
  { id := 2, title := "Anthology",
    authors := [⟨"Early Author", some 1700, some 1750⟩,
                ⟨"Late Author", some 1800, some 1850⟩],
    languages := ["en"], subjects := [], bookshelves := [],
    download_count := 5, release_date := "1900-01-01" }

/-- A record whose authors list is empty. -/
def sampleBookNoAuthors : Book :=
  { id := 3, title := "Anonymous Works", authors := [], languages := ["en"],
    subjects := [], bookshelves := [], download_count := 0, release_date := "" }

/-- A French-language record. -/
def sampleBookFr : Book :=
  { id := 7, title := "Livre", authors := [⟨"Bea", some 1900, some 1980⟩],
    languages := ["fr"], subjects := [], bookshelves := [],
    download_count := 3, release_date := "1950-01-01" }

/-- An English-language record with download count 5. -/
def sampleBookEn : Book :=
  { id := 8, title := "Essays", authors := [⟨"Cy", some 1850, some 1920⟩],
    languages := ["en"], subjects := [], bookshelves := [],
    download_count := 5, release_date := "1880-01-01" }

/-- C4: on a transport or decode failure, listAll (getBookList) and a
search with a valid searchType resolve with the empty fallback page
rather than propagating the failure: the paginated client (Query.jsx
and part_001) resolves with the page record count 0, next and previous
null, results empty, and the part_000 client, whose operations resolve
with the results array only, resolves with the results component of
that fallback (the empty list).  No failure reaches the caller as an
exception in either client. -/
theorem claim_C4 : ∀ (q st so : String) (p : Int) (msg : String),
    (V1.getBookList so p (FetchOutcome.failure msg)).2 = emptyPageResult ∧
    (st ∈ V1.validSearchTypes →
      (V1.searchBooks q st so p (FetchOutcome.failure msg)).2 =
        Except.ok emptyPageResult) ∧
    (V0.getBookList so (FetchOutcome.failure msg)).2 = emptyPageResult.results ∧
    (st ∈ V0.validSearchTypes →
      (V0.searchBooks q st so (FetchOutcome.failure msg)).2 =
        Except.ok emptyPageResult.results) := by
  intro q st so p msg
  refine ⟨rfl, fun h => ?_, rfl, fun h => ?_⟩
  · simp [V1.searchBooks, if_pos h, V1.fetchPage]
  · simp [V0.searchBooks, if_pos h, emptyPageResult]

/-- C4 witness: the failure fallback at a concrete valid search type. -/
theorem claim_C4_witness :
    (V1.getBookList ("popular") 1 (FetchOutcome.failure ("net down"))).2 =
      emptyPageResult ∧
    ((V1.searchBooks ("frank") ("topic") ("popular") 1
        (FetchOutcome.failure ("net down"))).2 = Except.ok emptyPageResult ∧
      (V0.getBookList ("popular") (FetchOutcome.failure ("net down"))).2 =
        emptyPageResult.results ∧
      (V0.searchBooks ("frank") ("topic") ("popular")
          (FetchOutcome.failure ("net down"))).2 =
        Except.ok emptyPageResult.results) := by
  have h := claim_C4 ("frank") ("topic") ("popular") 1 ("net down")
  exact ⟨h.1, h.2.1 (by decide), h.2.2.1, h.2.2.2 (by decide)⟩

/-- C5: a searchType outside the accepted list makes searchBooks reject
immediately with the invalid-argument message and an empty request
list, in both the paginated client and the part_000 client; an accepted
searchType passes validation and issues exactly one request. -/
theorem claim_C5 : ∀ (q st so : String) (p : Int) (o : FetchOutcome),
    (st ∉ V1.validSearchTypes →
      V1.searchBooks q st so p o = ([], Except.error ("Invalid search type."))) ∧
    (st ∉ V0.validSearchTypes →
      V0.searchBooks q st so o = ([], Except.error ("Invalid search type."))) ∧
    (st ∈ V1.validSearchTypes →
      V1.searchBooks q st so p o =
        ([V1.searchBooksUrl q st so p], Except.ok (V1.fetchPage o))) := by
  intro q st so p o
  refine ⟨fun h => ?_, fun h => ?_, fun h => ?_⟩
  · simp [V1.searchBooks, if_neg h]
  · simp [V0.searchBooks, if_neg h]
  · simp [V1.searchBooks, if_pos h]

/-- C5 witness: the bogus search type is rejected with no request by
both clients, and the default search type passes validation. -/
theorem claim_C5_witness :
    V1.searchBooks ("q") ("bogus") ("popular") 1 (FetchOutcome.failure ("e")) =
      ([], Except.error ("Invalid search type.")) ∧
    V0.searchBooks ("q") ("bogus") ("popular") (FetchOutcome.failure ("e")) =
      ([], Except.error ("Invalid search type.")) ∧
    V1.searchBooks ("q") ("default") ("popular") 1 (FetchOutcome.failure ("e")) =
      ([V1.searchBooksUrl ("q") ("default") ("popular") 1],
        Except.ok (V1.fetchPage (FetchOutcome.failure ("e")))) := by
  refine ⟨?_, ?_, ?_⟩
  · exact (claim_C5 ("q") ("bogus") ("popular") 1 (FetchOutcome.failure ("e"))).1
      (by decide)
  · exact (claim_C5 ("q") ("bogus") ("popular") 1 (FetchOutcome.failure ("e"))).2.1
      (by decide)
  · exact (claim_C5 ("q") ("default") ("popular") 1 (FetchOutcome.failure ("e"))).2.2
      (by decide)

/-- C6 counterexample: in part_000, an accepted topic search does not
build the URL whose query parameter is named topic (as the claim
states for every variant); the request it issues uses the search
parameter instead. -/
theorem claim_C6_counterexample :
    (V0.searchBooks ("war") ("topic") ("popular")
        (FetchOutcome.failure ("e"))).1 ≠
      [V0.API_BASE_URL ++ "/books?topic=" ++ encodeURIComponent ("war") ++
        "&sort=" ++ ("popular")] ∧
    (V0.searchBooks ("war") ("topic") ("popular")
        (FetchOutcome.failure ("e"))).1 =
      [V0.API_BASE_URL ++ "/books?search=" ++ encodeURIComponent ("war") ++
        "&sort=" ++ ("popular")] := by
  constructor
  · decide
  · rfl

/-- C6 (amended): in the paginated variants (Query.jsx and part_001)
the request URL built by search uses the topic query parameter when
searchType is topic and the search query parameter for every other
accepted searchType, with the query percent-encoded; in the part_000
variant every accepted searchType, topic included, uses the search
query parameter, with the query percent-encoded. -/
theorem claim_C6 : ∀ (q st so : String) (p : Int) (o : FetchOutcome),
    (st ∈ V1.validSearchTypes →
      (V1.searchBooks q st so p o).1 =
        [V1.API_BASE_URL ++
          (if st = "topic" then "/books?topic=" else "/books?search=") ++
          encodeURIComponent q ++ "&sort=" ++ so ++ "&page=" ++ toString p]) ∧
    (st ∈ V0.validSearchTypes →
      (V0.searchBooks q st so o).1 =
        [V0.API_BASE_URL ++ "/books?search=" ++ encodeURIComponent q ++
          "&sort=" ++ so]) := by
  intro q st so p o
  constructor
  · intro h
    simp only [V1.searchBooks, if_pos h, V1.searchBooksUrl]
    by_cases ht : st = "topic"
    · simp [ht]
    · simp [ht]
  · intro h
    simp [V0.searchBooks, if_pos h, V0.searchBooksUrl]

/-- C6 witness: concrete URLs for a topic search and a default search
in the paginated client, and a topic search in part_000. -/
theorem claim_C6_witness :
    (V1.searchBooks ("war peace") ("topic") ("popular") 2
        (FetchOutcome.failure ("e"))).1 =
      [V1.API_BASE_URL ++
        (if ("topic" : String) = "topic" then "/books?topic=" else "/books?search=") ++
        encodeURIComponent ("war peace") ++ "&sort=" ++ ("popular") ++
        "&page=" ++ toString (2 : Int)] ∧
    (V0.searchBooks ("war peace") ("topic") ("popular")
        (FetchOutcome.failure ("e"))).1 =
      [V0.API_BASE_URL ++ "/books?search=" ++ encodeURIComponent ("war peace") ++
        "&sort=" ++ ("popular")] := by
  constructor
  · exact (claim_C6 ("war peace") ("topic") ("popular") 2
      (FetchOutcome.failure ("e"))).1 (by decide)
  · exact (claim_C6 ("war peace") ("topic") ("popular") 2
      (FetchOutcome.failure ("e"))).2 (by decide)

/-- Stability of stable insertion sort, phrased through key classes:
for a preorder that is determined by a key (equal keys are related),
sorting does not reorder the elements of any one key class. -/
theorem stable_filter_key {α κ : Type} [DecidableEq κ]
    (key : α → κ) (r : α → α → Prop) [DecidableRel r]
    (tot : ∀ a b, r a b ∨ r b a)
    (tr : ∀ a b c, r a b → r b c → r a c)
    (hkey : ∀ a b, key a = key b → r a b) (l : List α) (v : κ) :
    (List.insertionSort r l).filter (fun x => key x == v) =
      l.filter (fun x => key x == v) := by
  rw [filter_insertionSort r tot tr]
  apply insertionSort_of_all_rel
  intro a ha b hb
  have ha' : key a = v := by simpa using (List.mem_filter.mp ha).2
  have hb' : key b = v := by simpa using (List.mem_filter.mp hb).2
  exact hkey a b (ha'.trans hb'.symm)

/-- C7: for each of the four supported sort orders of Query.jsx,
sortBooks returns a permutation of its input (a freshly built sequence
with the same records; the Lean embedding is pure, matching the
non-mutating books.slice() copy in the source), and the sort is stable:
for every key value, the records carrying that key appear in the output
in exactly their input order. -/
theorem claim_C7 : ∀ l : List Book,
    ((V1.sortBooks l ("ascending_popular")).Perm l ∧
      ∀ v : Nat,
        (V1.sortBooks l ("ascending_popular")).filter
            (fun b => b.download_count == v) =
          l.filter (fun b => b.download_count == v)) ∧
    ((V1.sortBooks l ("descending_popular")).Perm l ∧
      ∀ v : Nat,
        (V1.sortBooks l ("descending_popular")).filter
            (fun b => b.download_count == v) =
          l.filter (fun b => b.download_count == v)) ∧
    ((V1.sortBooks l ("alphabetical")).Perm l ∧
      ∀ v : String,
        (V1.sortBooks l ("alphabetical")).filter (fun b => b.title == v) =
          l.filter (fun b => b.title == v)) ∧
    ((V1.sortBooks l ("reverse_alphabetical")).Perm l ∧
      ∀ v : String,
        (V1.sortBooks l ("reverse_alphabetical")).filter (fun b => b.title == v) =
          l.filter (fun b => b.title == v)) := by
  intro l
  have hasc : V1.sortBooks l ("ascending_popular") =
      List.insertionSort (fun a b : Book => a.download_count ≤ b.download_count) l := rfl
  have hdesc : V1.sortBooks l ("descending_popular") =
      List.insertionSort (fun a b : Book => b.download_count ≤ a.download_count) l := rfl
  have halpha : V1.sortBooks l ("alphabetical") =
      List.insertionSort (fun a b : Book => a.title ≤ b.title) l := rfl
  have hrev : V1.sortBooks l ("reverse_alphabetical") =
      List.insertionSort (fun a b : Book => b.title ≤ a.title) l := rfl
  refine ⟨⟨?_, ?_⟩, ⟨?_, ?_⟩, ⟨?_, ?_⟩, ⟨?_, ?_⟩⟩
  · rw [hasc]; exact List.perm_insertionSort _ l
  · intro v
    rw [hasc]
    exact stable_filter_key (fun b : Book => b.download_count)
      (fun a b : Book => a.download_count ≤ b.download_count)
      (fun a b => Nat.le_total _ _) (fun a b c => Nat.le_trans)
      (fun a b h => by exact Nat.le_of_eq h) l v
  · rw [hdesc]; exact List.perm_insertionSort _ l
  · intro v
    rw [hdesc]
    exact stable_filter_key (fun b : Book => b.download_count)
      (fun a b : Book => b.download_count ≤ a.download_count)
      (fun a b => Nat.le_total _ _) (fun a b c hab hbc => Nat.le_trans hbc hab)
      (fun a b h => by exact Nat.le_of_eq h.symm) l v
  · rw [halpha]; exact List.perm_insertionSort _ l
  · intro v
    rw [halpha]
    exact stable_filter_key (fun b : Book => b.title)
      (fun a b : Book => a.title ≤ b.title)
      (fun a b => le_total _ _) (fun a b c => le_trans)
      (fun a b h => by exact le_of_eq h) l v
  · rw [hrev]; exact List.perm_insertionSort _ l
  · intro v
    rw [hrev]
    exact stable_filter_key (fun b : Book => b.title)
      (fun a b : Book => b.title ≤ a.title)
      (fun a b => le_total _ _) (fun a b c hab hbc => le_trans hbc hab)
      (fun a b h => by exact le_of_eq h.symm) l v

/-- C8: an empty filterType or an empty filterValue makes filterBooks
the identity, in part_000 and in Query.jsx (whose filterBooks resolves
without throwing, returning its input), and therefore a no-op filter
applied after sortBooks returns exactly the sorted list. -/
theorem claim_C8 : ∀ (l : List Book) (ft fv so : String),
    V0.filterBooks l ("") fv = l ∧
    V0.filterBooks l ft ("") = l ∧
    V1.filterBooks l ("") fv = some l ∧
    V1.filterBooks l ft ("") = some l ∧
    V1.filterBooks (V1.sortBooks l so) ("") fv = some (V1.sortBooks l so) := by
  intro l ft fv so
  refine ⟨?_, ?_, ?_, ?_, ?_⟩ <;>
    simp [V0.filterBooks, V1.filterBooks]

/-- The keep-predicate in the words of the author_year specification:
the record is kept exactly when the filter year lies within the span
from the minimum birth year to the maximum death year over all of the
record authors, with missing years excluded from the minimum and
maximum; a record with no authors, or whose authors all lack the
relevant year, has no such bound and is excluded. -/
def claimAuthorYearKeep (fv : Int) (b : Book) : Bool :=
  match (b.authors.map Author.birth_year).filterMap id |>.min?,
        (b.authors.map Author.death_year).filterMap id |>.max? with
  | some mn, some mx => decide (mn ≤ fv ∧ fv ≤ mx)
  | _, _ => false

/-- The part_001 author_year predicate agrees with the spec-side
predicate whenever the filter value is a numeric string. -/
theorem V2.authorYearKeep_eq_claim (s : String) (fv : Int)
    (h : jsToNumber? s = some fv) (b : Book) :
    V2.authorYearKeep s b = claimAuthorYearKeep fv b := by
  unfold V2.authorYearKeep claimAuthorYearKeep
  rw [h]
  cases hmn : (b.authors.map Author.birth_year).filterMap id |>.min? <;>
    cases hmx : (b.authors.map Author.death_year).filterMap id |>.max? <;> rfl

/-- C1 counterexample: the claim quantifies over every list of book
records for the cited filterBooks implementations, but the Query.jsx
implementation consults only the first author: for the two-author
record whose unioned span 1700-1850 contains 1825, the claim keeps the
record while the Query.jsx filter excludes it (its first author died in
1750). -/
theorem claim_C1_counterexample :
    claimAuthorYearKeep 1825 sampleBookTwoAuthors = true ∧
    V1.filterBooks [sampleBookTwoAuthors] ("author_year") ("1825") =
      some [] := by
  constructor
  · decide
  · decide

/-- C1 (amended): in the part_001 variant, filtering with
filterType author_year and a numeric filterValue keeps exactly the
records for which the value lies within the span from the minimum
birth year to the maximum death year over all authors, with missing
years excluded from the bounds and records with an empty authors list
or no usable years excluded; in particular the one-author 1800-1850
record is kept for 1825 and excluded for 1900.  (The Query.jsx variant
instead consults only the first author; see the counterexample and
claim C10.) -/
theorem claim_C1 : ∀ (books : List Book) (s : String) (fv : Int),
    jsToNumber? s = some fv →
    V2.filterBooks books ("author_year") s =
        books.filter (claimAuthorYearKeep fv) ∧
    V2.filterBooks [sampleBook1800] ("author_year") ("1825") =
        [sampleBook1800] ∧
    V2.filterBooks [sampleBook1800] ("author_year") ("1900") = [] := by
  intro books s fv h
  have hs : ¬ s = "" := by
    intro he
    rw [he] at h
    rw [show jsToNumber? ("") = none from rfl] at h
    exact Option.noConfusion h
  refine ⟨?_, by decide, by decide⟩
  have hbr : V2.filterBooks books ("author_year") s =
      books.filter (V2.authorYearKeep s) := by
    unfold V2.filterBooks
    rw [if_neg (by simp [hs])]
    rfl
  rw [hbr]

  exact List.filter_congr fun b _ => V2.authorYearKeep_eq_claim s fv h b

/-- C1 witness: the amended statement applied at the two-author record
and the numeric filter value 1825. -/
theorem claim_C1_witness :
    V2.filterBooks [sampleBookTwoAuthors] ("author_year") ("1825") =
        [sampleBookTwoAuthors].filter (claimAuthorYearKeep 1825) ∧
    V2.filterBooks [sampleBook1800] ("author_year") ("1825") =
        [sampleBook1800] ∧
    V2.filterBooks [sampleBook1800] ("author_year") ("1900") = [] :=
  claim_C1 [sampleBookTwoAuthors] ("1825") 1825 (by decide)

/-- C10: the Query.jsx author_year filter reads birth_year and
death_year from the first author only.  With a non-empty filter value,
any record whose authors list is empty makes the whole filter call
throw (the none outcome) rather than exclude that record, so the filter
is not total over the documented record type; when every record has at
least one author the call returns the list filtered by a predicate of
the first author alone, and that predicate ignores every author after
the first. -/
theorem claim_C10 : ∀ (books : List Book) (fv : String),
    (fv ≠ "" → (∃ b ∈ books, b.authors = []) →
      V1.filterBooks books ("author_year") fv = none) ∧
    (fv ≠ "" → (∀ b ∈ books, b.authors ≠ []) →
      V1.filterBooks books ("author_year") fv =
        some (books.filter (V1.authorYearKeep fv))) ∧
    (∀ (b : Book) (a : Author) (rest : List Author),
      V1.authorYearKeep fv { b with authors := a :: rest } =
      V1.authorYearKeep fv { b with authors := [a] }) := by
  intro books fv
  refine ⟨fun hfv hex => ?_, fun hfv hall => ?_, fun b a rest => rfl⟩
  · have hbr : V1.filterBooks books ("author_year") fv =
        (if books.any fun b => b.authors.isEmpty then none
         else some (books.filter (V1.authorYearKeep fv))) := by
      unfold V1.filterBooks
      rw [if_neg (by simp [hfv])]
      rfl
    rw [hbr, if_pos]
    rcases hex with ⟨b, hmem, hemp⟩
    exact List.any_eq_true.mpr ⟨b, hmem, by simp [hemp]⟩
  · have hbr : V1.filterBooks books ("author_year") fv =
        (if books.any fun b => b.authors.isEmpty then none
         else some (books.filter (V1.authorYearKeep fv))) := by
      unfold V1.filterBooks
      rw [if_neg (by simp [hfv])]
      rfl
    rw [hbr, if_neg]
    intro hany
    rcases List.any_eq_true.mp hany with ⟨b, hmem, hemp⟩
    exact hall b hmem (by simpa using hemp)

/-- C10 witness: a singleton list whose record has no authors makes the
Query.jsx author_year filter throw, and a populated record list is
filtered by the first author only. -/
theorem claim_C10_witness :
    V1.filterBooks [sampleBookNoAuthors] ("author_year") ("1825") = none ∧
    V1.filterBooks [sampleBookTwoAuthors] ("author_year") ("1825") =
      some ([sampleBookTwoAuthors].filter (V1.authorYearKeep ("1825"))) := by
  constructor
  · exact (claim_C10 [sampleBookNoAuthors] ("1825")).1 (by decide)
      ⟨sampleBookNoAuthors, by decide, rfl⟩
  · exact (claim_C10 [sampleBookTwoAuthors] ("1825")).2.1 (by decide)
      (by decide)

/-- Sorting the empty list yields the empty list under every sort
order. -/
theorem V1.sortBooks_nil (so : String) : V1.sortBooks [] so = [] := by
  unfold V1.sortBooks
  split <;> rfl

/-- Filtering the empty list succeeds with the empty list under every
filter type and value. -/
theorem V1.filterBooks_nil (ft fv : String) :
    V1.filterBooks [] ft fv = some [] := by
  unfold V1.filterBooks
  by_cases h : ft = "" ∨ fv = ""
  · rw [if_pos h]
  · rw [if_neg h]
    split <;> rfl

/-- After one settled round of the two derivation effects of Query.jsx,
the published filteredResults is the filter of the sort of the raw
results, provided sortedResults is empty whenever results is (which
every reachable state satisfies, because the fetch handlers write the
same list into results and sortedResults and the sorting effect skips
only when results is empty).  The inert fields are unchanged. -/
theorem V1.settle_spec (s t : ControllerState)
    (hs : s.results = [] → s.sortedResults = [])
    (h : settle s = some t) :
    filterBooks (sortBooks s.results s.sortOrder) s.filterType s.filterValue =
        some t.filteredResults ∧
    t.results = s.results ∧ t.sortOrder = s.sortOrder ∧
    t.filterType = s.filterType ∧ t.filterValue = s.filterValue := by
  unfold settle sortEffect filterEffect at h
  by_cases hr : s.results.length > 0
  · rw [if_pos hr] at h
    simp only [Option.map_eq_some'] at h
    rcases h with ⟨f, hf, ht⟩
    subst ht
    exact ⟨by simpa using hf, rfl, rfl, rfl, rfl⟩
  · rw [if_neg hr] at h
    have hnil : s.results = [] := by
      cases hres : s.results with
      | nil => rfl
      | cons x xs => rw [hres] at hr; simp at hr
    have hsort : s.sortedResults = [] := hs hnil
    rw [hsort] at h
    rw [filterBooks_nil] at h
    simp only [Option.map_some', Option.some_inj] at h
    subst h
    rw [hnil, sortBooks_nil, filterBooks_nil]
    exact ⟨rfl, rfl, rfl, rfl, rfl⟩

/-- C2 counterexample: handleSearch assigns the raw fetched page
results directly to filteredResults (Query.jsx line 140), so at the
observable render point right after the fetch resolves and before the
derivation effects run, filteredResults is not the filter of the sort
of the held state: with an active language filter excluding the fetched
French record, filteredResults holds that record while the derivation
is empty. -/
theorem claim_C2_counterexample :
    some ((V1.handleSearch
        { searchTerm := "livre", results := [], filteredResults := [],
          sortedResults := [], sortOrder := "", filterType := "language",
          filterValue := "en", selectedSearchType := "default",
          nextPageUrl := none, prevPageUrl := none, currentPage := 1 }
        1 (FetchOutcome.success
            { count := 1, next := none, previous := none,
              results := [sampleBookFr] })).1.filteredResults) ≠
      V1.filterBooks
        (V1.sortBooks (V1.handleSearch
            { searchTerm := "livre", results := [], filteredResults := [],
              sortedResults := [], sortOrder := "", filterType := "language",
              filterValue := "en", selectedSearchType := "default",
              nextPageUrl := none, prevPageUrl := none, currentPage := 1 }
            1 (FetchOutcome.success
                { count := 1, next := none, previous := none,
                  results := [sampleBookFr] })).1.results (""))
        ("language") ("en") := by
  decide

/-- C2 (amended): at every observable point after the derivation
effects have settled, the published filteredResults equals the pure
derivation filter(sort(results, sortOrder), filterType, filterValue) of
the held state (under the reachable-state condition that sortedResults
is empty whenever results is); however, filteredResults is not only
ever assigned that derivation: handleSearch and handleShowAllBooks
transiently assign the raw fetched page results to it, which the
effects then overwrite. -/
theorem claim_C2 : ∀ s t : V1.ControllerState,
    (s.results = [] → s.sortedResults = []) →
    V1.settle s = some t →
    V1.filterBooks (V1.sortBooks t.results t.sortOrder)
        t.filterType t.filterValue = some t.filteredResults := by
  intro s t hs h
  obtain ⟨hmain, hres, hso, hft, hfv⟩ := V1.settle_spec s t hs h
  rw [hres, hso, hft, hfv]
  exact hmain

/-- C2 witness: a settled state whose published list is the derivation
of its inputs. -/
theorem claim_C2_witness :
    V1.filterBooks
        (V1.sortBooks
          ({ searchTerm := "", results := [sampleBookFr],
             filteredResults := [sampleBookFr],
             sortedResults := [sampleBookFr], sortOrder := "alphabetical",
             filterType := "", filterValue := "",
             selectedSearchType := "default", nextPageUrl := none,
             prevPageUrl := none,
             currentPage := 1 } : V1.ControllerState).results
          ("alphabetical"))
        ("") ("") = some [sampleBookFr] :=
  claim_C2
    { searchTerm := "", results := [sampleBookFr],
      filteredResults := [sampleBookFr], sortedResults := [sampleBookFr],
      sortOrder := "alphabetical", filterType := "", filterValue := "",
      selectedSearchType := "default", nextPageUrl := none,
      prevPageUrl := none, currentPage := 1 }
    { searchTerm := "", results := [sampleBookFr],
      filteredResults := [sampleBookFr], sortedResults := [sampleBookFr],
      sortOrder := "alphabetical", filterType := "", filterValue := "",
      selectedSearchType := "default", nextPageUrl := none,
      prevPageUrl := none, currentPage := 1 }
    (by decide) (by decide)

/-- The part_000 comparator preorder is total for every sort type. -/
theorem V0.sortCmpLe_total (dv : String → Int) (st : String) (a b : Book) :
    sortCmpLe dv st a b ∨ sortCmpLe dv st b a := by
  unfold sortCmpLe
  split
  · exact le_total _ _
  · exact le_total _ _
  · exact Int.le_total _ _
  · exact Nat.le_total _ _
  · exact Or.inl trivial

/-- The part_000 comparator preorder is transitive for every sort
type. -/
theorem V0.sortCmpLe_trans (dv : String → Int) (st : String) (a b c : Book)
    (hab : sortCmpLe dv st a b) (hbc : sortCmpLe dv st b c) :
    sortCmpLe dv st a c := by
  unfold sortCmpLe at hab hbc ⊢
  split
  · exact le_trans hab hbc
  · exact le_trans hbc hab
  · exact le_trans hab hbc
  · exact le_trans hbc hab
  · exact trivial

/-- Stability consequence for part_000: sorting after filtering with
any pointwise predicate equals filtering after sorting. -/
theorem V0.sortBooks_filter_comm (dv : String → Int) (l : List Book)
    (st : String) (p : Book → Bool) :
    V0.sortBooks dv (l.filter p) st = (V0.sortBooks dv l st).filter p := by
  unfold sortBooks
  by_cases h : st = ""
  · rw [if_pos h, if_pos h]
  · rw [if_neg h, if_neg h]
    exact (filter_insertionSort (sortCmpLe dv st)
      (sortCmpLe_total dv st) (sortCmpLe_trans dv st) p l).symm

/-- C3: after every completed state change, the published display list
equals the filter of the sort of the raw results.  In part_000 the
derivation effect computes the filter first and the sort second, but
because the sort is stable the published list provably equals the
sort-before-filter composition stated by the claim; in Query.jsx (and
part_001) the effects compute the sort first and the filter second
directly. -/
theorem claim_C3 :
    (∀ (dateValue : String → Int) (s : V0.ControllerState),
      (V0.settle dateValue s).filteredResults =
        V0.filterBooks (V0.sortBooks dateValue s.results s.sortOrder)
          s.filterType s.filterValue) ∧
    (∀ s t : V1.ControllerState,
      (s.results = [] → s.sortedResults = []) →
      V1.settle s = some t →
      some t.filteredResults =
        V1.filterBooks (V1.sortBooks s.results s.sortOrder)
          s.filterType s.filterValue) := by
  constructor
  · intro dv s
    show V0.sortBooks dv
        (V0.filterBooks s.results s.filterType s.filterValue) s.sortOrder =
      V0.filterBooks (V0.sortBooks dv s.results s.sortOrder)
        s.filterType s.filterValue
    generalize s.results = l
    generalize s.filterType = ft
    generalize s.filterValue = fv
    generalize s.sortOrder = so
    unfold V0.filterBooks
    by_cases hf : ft = "" ∨ fv = ""
    · rw [if_pos hf, if_pos hf]
    · rw [if_neg hf, if_neg hf]
      split
      · exact V0.sortBooks_filter_comm dv l so _
      · exact V0.sortBooks_filter_comm dv l so _
      · rfl
  · intro s t hs h
    exact (V1.settle_spec s t hs h).1.symm

/-- C3 witness: the settled Query.jsx state for two fetched records, a
descending popularity sort and an active language filter publishes the
filter of the sort of the raw results. -/
theorem claim_C3_witness :
    some (({ searchTerm := "essays", results := [sampleBookEn, sampleBookFr],
             filteredResults := [sampleBookEn],
             sortedResults := [sampleBookEn, sampleBookFr],
             sortOrder := "descending_popular", filterType := "language",
             filterValue := "en", selectedSearchType := "default",
             nextPageUrl := none, prevPageUrl := none,
             currentPage := 1 } : V1.ControllerState).filteredResults) =
      V1.filterBooks
        (V1.sortBooks
          ({ searchTerm := "essays", results := [sampleBookEn, sampleBookFr],
             filteredResults := [], sortedResults := [],
             sortOrder := "descending_popular", filterType := "language",
             filterValue := "en", selectedSearchType := "default",
             nextPageUrl := none, prevPageUrl := none,
             currentPage := 1 } : V1.ControllerState).results
          ("descending_popular"))
        ("language") ("en") :=
  claim_C3.2
    { searchTerm := "essays", results := [sampleBookEn, sampleBookFr],
      filteredResults := [], sortedResults := [],
      sortOrder := "descending_popular", filterType := "language",
      filterValue := "en", selectedSearchType := "default",
      nextPageUrl := none, prevPageUrl := none, currentPage := 1 }
    { searchTerm := "essays", results := [sampleBookEn, sampleBookFr],
      filteredResults := [sampleBookEn],
      sortedResults := [sampleBookEn, sampleBookFr],
      sortOrder := "descending_popular", filterType := "language",
      filterValue := "en", selectedSearchType := "default",
      nextPageUrl := none, prevPageUrl := none, currentPage := 1 }
    (by decide) (by decide)

/-- C9: when the next cursor from the last fetched page is absent,
handleNextPage issues no network call and leaves the controller state
unchanged, and handlePreviousPage likewise when the previous cursor is
absent; when the cursor is present, the handler re-issues the search
when the search term is non-empty and the browse otherwise, at
currentPage plus one respectively minus one. -/
theorem claim_C9 : ∀ (s : V1.ControllerState) (o : FetchOutcome),
    (s.nextPageUrl = none → V1.handleNextPage s o = (s, [])) ∧
    (s.prevPageUrl = none → V1.handlePreviousPage s o = (s, [])) ∧
    (∀ u, s.nextPageUrl = some u →
      V1.handleNextPage s o =
        (if s.searchTerm ≠ "" then V1.handleSearch s (s.currentPage + 1) o
         else V1.handleShowAllBooks s (s.currentPage + 1) o)) ∧
    (∀ u, s.prevPageUrl = some u →
      V1.handlePreviousPage s o =
        (if s.searchTerm ≠ "" then V1.handleSearch s (s.currentPage - 1) o
         else V1.handleShowAllBooks s (s.currentPage - 1) o)) := by
  intro s o
  refine ⟨fun h => ?_, fun h => ?_, fun u h => ?_, fun u h => ?_⟩
  · unfold V1.handleNextPage
    rw [h]
  · unfold V1.handlePreviousPage
    rw [h]
  · unfold V1.handleNextPage
    rw [h]
  · unfold V1.handlePreviousPage
    rw [h]

/-- C9 witness: a state with no next cursor but a previous cursor and a
non-empty search term: next page is a no-op with no request, previous
page re-issues the search at the decremented page. -/
theorem claim_C9_witness :
    V1.handleNextPage
        { searchTerm := "alice", results := [], filteredResults := [],
          sortedResults := [], sortOrder := "", filterType := "",
          filterValue := "", selectedSearchType := "default",
          nextPageUrl := none,
          prevPageUrl := some ("https://gutendex.com/books?page=1"),
          currentPage := 2 }
        (FetchOutcome.failure ("down")) =
      ({ searchTerm := "alice", results := [], filteredResults := [],
         sortedResults := [], sortOrder := "", filterType := "",
         filterValue := "", selectedSearchType := "default",
         nextPageUrl := none,
         prevPageUrl := some ("https://gutendex.com/books?page=1"),
         currentPage := 2 }, []) ∧
    V1.handlePreviousPage
        { searchTerm := "alice", results := [], filteredResults := [],
          sortedResults := [], sortOrder := "", filterType := "",
          filterValue := "", selectedSearchType := "default",
          nextPageUrl := none,
          prevPageUrl := some ("https://gutendex.com/books?page=1"),
          currentPage := 2 }
        (FetchOutcome.failure ("down")) =
      (if ({ searchTerm := "alice", results := [], filteredResults := [],
             sortedResults := [], sortOrder := "", filterType := "",
             filterValue := "", selectedSearchType := "default",
             nextPageUrl := none,
             prevPageUrl := some ("https://gutendex.com/books?page=1"),
             currentPage := 2 } : V1.ControllerState).searchTerm ≠ "" then
         V1.handleSearch
           { searchTerm := "alice", results := [], filteredResults := [],
             sortedResults := [], sortOrder := "", filterType := "",
             filterValue := "", selectedSearchType := "default",
             nextPageUrl := none,
             prevPageUrl := some ("https://gutendex.com/books?page=1"),
             currentPage := 2 }
           (2 - 1) (FetchOutcome.failure ("down"))
       else
         V1.handleShowAllBooks
           { searchTerm := "alice", results := [], filteredResults := [],
             sortedResults := [], sortOrder := "", filterType := "",
             filterValue := "", selectedSearchType := "default",
             nextPageUrl := none,
             prevPageUrl := some ("https://gutendex.com/books?page=1"),
             currentPage := 2 }
           (2 - 1) (FetchOutcome.failure ("down"))) := by
  constructor
  · exact (claim_C9
      { searchTerm := "alice", results := [], filteredResults := [],
        sortedResults := [], sortOrder := "", filterType := "",
        filterValue := "", selectedSearchType := "default",
        nextPageUrl := none,
        prevPageUrl := some ("https://gutendex.com/books?page=1"),
        currentPage := 2 }
      (FetchOutcome.failure ("down"))).1 rfl
  · exact (claim_C9
      { searchTerm := "alice", results := [], filteredResults := [],
        sortedResults := [], sortOrder := "", filterType := "",
        filterValue := "", selectedSearchType := "default",
        nextPageUrl := none,
        prevPageUrl := some ("https://gutendex.com/books?page=1"),
        currentPage := 2 }
      (FetchOutcome.failure ("down"))).2.2.2
      ("https://gutendex.com/books?page=1") rfl
